import Mathlib

/-!
Verification of the F1 ETL pipeline (src/f1.py) against its specification.

The pipeline has three steps: `extract_data` (HTTP fetch), `transform_data`
(field mapping) and `load_data_into_database` (DDL + row inserts).  Python
dictionaries are modelled as association lists whose stored values live in
`Option α` (so that a key can be present with value `None`); Python's
`dict.get(k)` becomes `pyGet`.  The database session of the loader is
modelled by an explicit state (`DBState`) together with a failure oracle
that decides, per issued operation, whether the database raises.
-/

namespace F1

/-- A Python dict with string keys.  A stored value `none` is Python's
`None`; a key may also be absent altogether. -/
abbrev PyDict (α : Type) := List (String × Option α)

/-- Python `d.get(k)`: the stored value when the key is present (possibly
`None`), and `None` when the key is absent. -/
def pyGet {α : Type} (d : PyDict α) (k : String) : Option α :=
  (d.lookup k).getD none

/-- The six field names the pipeline maps, in the order they appear in the
dict literal of `transform_data` (src/f1.py lines 45-52). -/
def pitKeys : List String :=
  ["date", "session_key", "meeting_key", "driver_number", "pit_duration", "lap_number"]

/-! ## Fetcher (`extract_data`, src/f1.py lines 27-37) -/

/-- An HTTP response: status code together with the decoded JSON array of
records (the result of `response.json()`). -/
structure HTTPResponse (α : Type) where
  status_code : Nat
  json : List (PyDict α)

/-- The error raised on a non-200 status; it carries the status code
(embedded in the exception message in the source). -/
structure FetchError where
  status_code : Nat
  deriving DecidableEq, Repr

/-- `extract_data` (src/f1.py lines 27-37): on status 200 return the decoded
body, otherwise raise carrying the status code. -/
def extract_data {α : Type} (response : HTTPResponse α) :
    Except FetchError (List (PyDict α)) :=
  if response.status_code = 200 then
    Except.ok response.json
  else
    Except.error ⟨response.status_code⟩

/-! ## Transformer (`transform_data`, src/f1.py lines 40-55) -/

/-- The dict literal built for one record inside the loop of
`transform_data` (src/f1.py lines 45-52). -/
def transform_row {α : Type} (f1_data : PyDict α) : PyDict α :=
  [("date", pyGet f1_data "date"),
   ("session_key", pyGet f1_data "session_key"),
   ("meeting_key", pyGet f1_data "meeting_key"),
   ("driver_number", pyGet f1_data "driver_number"),
   ("pit_duration", pyGet f1_data "pit_duration"),
   ("lap_number", pyGet f1_data "lap_number")]

/-- `transform_data` (src/f1.py lines 40-55): one output row per input
record, in input order. -/
def transform_data {α : Type} (f1_data_list : List (PyDict α)) : List (PyDict α) :=
  f1_data_list.map transform_row

/-! ### Heap model of the transformer

To state purity (the input records are not mutated, and the call is
referentially transparent) we also run `transform_data` over an explicit
object heap: the input is a list of addresses of dicts, and each loop
iteration allocates a fresh dict.  Addresses are indices into the heap's
object list; allocation appends. -/

/-- A heap of Python dict objects; an address is an index into `objs`. -/
structure PyHeap (α : Type) where
  objs : List (PyDict α)

/-- Dereference an address (valid addresses satisfy `a < h.objs.length`). -/
def PyHeap.read {α : Type} (h : PyHeap α) (a : Nat) : PyDict α :=
  h.objs.getD a []

/-- Allocate a fresh dict, returning the new heap and the fresh address. -/
def PyHeap.alloc {α : Type} (h : PyHeap α) (d : PyDict α) : PyHeap α × Nat :=
  (⟨h.objs ++ [d]⟩, h.objs.length)

/-- `transform_data` run over the heap: each iteration reads the current
record and allocates the new six-field dict (src/f1.py lines 44-52). -/
def transform_data_impl {α : Type} (h : PyHeap α) : List Nat → PyHeap α × List Nat
  | [] => (h, [])
  | a :: rest =>
    let d := h.read a
    let p := h.alloc (transform_row d)
    let q := transform_data_impl p.1 rest
    (q.1, p.2 :: q.2)

/-! ## Loader (`load_data_into_database`, src/f1.py lines 58-125)

The loader talks to the database through a connection.  We model each
database round-trip as an `Op`, issued in program order and numbered from 0;
a failure oracle `Nat → Option ε` says whether the i-th issued operation
succeeds (`none`) or raises an exception `e : ε` (`some e`).  The database
session state tracks the pending (executed, uncommitted) work, the work
committed by this run, whether the connection is open, and the trace of all
operations that were attempted. -/

/-- One database round-trip issued by the loader. -/
inductive Op (α : Type) where
  | connect
  | createTable
  | commit
  | insert (params : PyDict α)
  deriving DecidableEq, Repr

/-- State of the database session during one run of the loader. -/
structure DBState (α : Type) where
  connOpen : Bool := false
  pendingDDL : Bool := false
  committedDDL : Bool := false
  pendingInserts : List (PyDict α) := []
  committedInserts : List (PyDict α) := []
  trace : List (Op α) := []
  deriving Repr

/-- Effect of a successful operation on the session state: `commit` makes
the pending work durable, `insert` adds a pending row. -/
def applyOp {α : Type} (s : DBState α) : Op α → DBState α
  | .connect => { s with connOpen := true }
  | .createTable => { s with pendingDDL := true }
  | .commit =>
    { s with pendingDDL := false,
             committedDDL := s.committedDDL || s.pendingDDL,
             pendingInserts := [],
             committedInserts := s.committedInserts ++ s.pendingInserts }
  | .insert p => { s with pendingInserts := s.pendingInserts ++ [p] }

/-- Issue operation number `i`: it is recorded in the trace in either case;
its effect applies only when the oracle lets it succeed. -/
def attempt {α ε : Type} (oracle : Nat → Option ε) (i : Nat) (op : Op α)
    (s : DBState α) : Option ε × DBState α :=
  match oracle i with
  | some e => (some e, { s with trace := s.trace ++ [op] })
  | none => (none, applyOp { s with trace := s.trace ++ [op] } op)

/-- The parameter dict bound to the insert statement for one row
(src/f1.py lines 107-114): each of the six parameters is read with
`data.get`, so a missing key yields a null parameter. -/
def insert_params {α : Type} (data : PyDict α) : PyDict α :=
  [("date", pyGet data "date"),
   ("session_key", pyGet data "session_key"),
   ("meeting_key", pyGet data "meeting_key"),
   ("driver_number", pyGet data "driver_number"),
   ("pit_duration", pyGet data "pit_duration"),
   ("lap_number", pyGet data "lap_number")]

/-- The row-by-row insert loop (src/f1.py lines 100-116): `i` is the number
of the next operation, `count` the running `insert_count`.  The first
failing insert aborts the loop with the raised exception; `insert_count` is
incremented only after a successful execute. -/
def insertLoop {α ε : Type} (oracle : Nat → Option ε) :
    List (PyDict α) → Nat → Nat → DBState α → Except ε Nat × Nat × DBState α
  | [], i, count, s => (Except.ok count, i, s)
  | data :: rest, i, count, s =>
    match attempt oracle i (Op.insert (insert_params data)) s with
    | (some e, s1) => (Except.error e, i + 1, s1)
    | (none, s1) => insertLoop oracle rest (i + 1) (count + 1) s1

/-- The body of the `try`/`with` block (src/f1.py lines 81-119): connect,
execute the DDL, commit it, run the insert loop, then commit the batch.
Returns either the final `insert_count` or the first exception, together
with the session state at that point. -/
def runBody {α ε : Type} (oracle : Nat → Option ε) (rows : List (PyDict α)) :
    Except ε Nat × DBState α :=
  match attempt oracle 0 Op.connect {} with
  | (some e, s) => (Except.error e, s)
  | (none, s0) =>
  match attempt oracle 1 Op.createTable s0 with
  | (some e, s) => (Except.error e, s)
  | (none, s1) =>
  match attempt oracle 2 Op.commit s1 with
  | (some e, s) => (Except.error e, s)
  | (none, s2) =>
  match insertLoop oracle rows 3 0 s2 with
  | (Except.error e, _, s3) => (Except.error e, s3)
  | (Except.ok count, i, s3) =>
    match attempt oracle i Op.commit s3 with
    | (some e, s) => (Except.error e, s)
    | (none, s4) => (Except.ok count, s4)

/-- Exit of the `with engine.connect()` block and of the `finally:` clause
(src/f1.py lines 81, 124-125): the connection is closed on every path out of
the block, discarding work that was executed but never committed. -/
def closeConn {α : Type} (s : DBState α) : DBState α :=
  { s with connOpen := false, pendingDDL := false, pendingInserts := [] }

/-- Python truthiness of `os.environ.get('DATABASE_URL')`: the guard
`if not DATABASE_URL` fires when the variable is unset or empty
(src/f1.py lines 63-64). -/
def strFalsy : Option String → Bool
  | none => true
  | some s => s.isEmpty

/-- The errors the loader can raise: the configuration error for a missing
connection string (the `RuntimeError` at src/f1.py line 65), or a database
exception re-raised by the `except` clause. -/
inductive LoadError (ε : Type) where
  | configError
  | dbError (e : ε)
  deriving Repr

/-- Outcome of one run of the loader: the returned `insert_count` or the
raised error, together with the final database session state. -/
structure LoadResult (ε α : Type) where
  outcome : Except (LoadError ε) Nat
  db : DBState α

/-- `load_data_into_database` (src/f1.py lines 58-125): check the
connection string before creating the engine, run the body, and close the
connection on every exit path. -/
def load_data_into_database {α ε : Type} (databaseURL : Option String)
    (transformed_data_list : List (PyDict α)) (oracle : Nat → Option ε) :
    LoadResult ε α :=
  if strFalsy databaseURL then
    { outcome := Except.error LoadError.configError, db := {} }
  else
    let r := runBody oracle transformed_data_list
    { outcome := r.1.mapError LoadError.dbError, db := closeConn r.2 }

/-! ## Lemmas about the transformer -/

/-- The keys of a transformed row, in order, are exactly the six pit keys. -/
theorem transform_row_keys {α : Type} (r : PyDict α) :
    (transform_row r).map Prod.fst = pitKeys := rfl

/-- On each of the six keys, a transformed row reads back exactly what
`dict.get` read from the raw record (so: the raw value when the key is
present, `None` when it is absent). -/
theorem transform_row_pyGet {α : Type} (r : PyDict α) :
    ∀ k ∈ pitKeys, pyGet (transform_row r) k = pyGet r k := by
  intro k hk
  fin_cases hk <;> rfl

/-- `transform_data` is the element-wise map of `transform_row`, read
through `getD`. -/
theorem transform_data_getD {α : Type} (l : List (PyDict α)) (i : Nat)
    (hi : i < l.length) :
    (transform_data l).getD i [] = transform_row (l.getD i []) := by
  simp [transform_data, List.getD, List.getElem?_eq_getElem, hi,
    List.getElem?_eq_getElem (l := l.map transform_row) (by simpa using hi)]

/-- Claim C1: for every input list of raw records, `transform_data` returns
a list of equal length, in the same order, where each output row is a
mapping with exactly the six keys `date`, `session_key`, `meeting_key`,
`driver_number`, `pit_duration`, `lap_number`, each value copied from the
corresponding raw record or set to null when the key is absent (extra keys
in the raw record are ignored). -/
theorem transform_data_spec {α : Type} (l : List (PyDict α)) :
    (transform_data l).length = l.length ∧
    ∀ i, i < l.length →
      ((transform_data l).getD i []).map Prod.fst = pitKeys ∧
      ∀ k ∈ pitKeys,
        pyGet ((transform_data l).getD i []) k = pyGet (l.getD i []) k := by
  refine ⟨by simp [transform_data], fun i hi => ?_⟩
  rw [transform_data_getD l i hi]
  exact ⟨transform_row_keys _, transform_row_pyGet _⟩

/-- Witness for C1 on a concrete record that has one of the six keys, an
extra key, and is missing the other five. -/
theorem transform_data_spec_witness :
    ((transform_data [[("date", some (1 : Nat)), ("extra", some 2)]]).getD 0 []).map
        Prod.fst = pitKeys ∧
    pyGet ((transform_data [[("date", some (1 : Nat)), ("extra", some 2)]]).getD 0 [])
        "lap_number" =
      pyGet ([[("date", some (1 : Nat)), ("extra", some 2)]].getD 0 []) "lap_number" := by
  have h := transform_data_spec [[("date", some (1 : Nat)), ("extra", some 2)]]
  exact ⟨(h.2 0 (by decide)).1, (h.2 0 (by decide)).2 "lap_number" (by decide)⟩

/-! ## Lemmas about the fetcher -/

/-- Claim C2: on HTTP status 200 the fetch step returns the decoded JSON
body as the list of raw records; on any other status it raises a
`FetchError` carrying that status code and returns no records. -/
theorem extract_data_spec {α : Type} (response : HTTPResponse α) :
    (response.status_code = 200 → extract_data response = Except.ok response.json) ∧
    (response.status_code ≠ 200 →
      extract_data response = Except.error ⟨response.status_code⟩) := by
  constructor <;> intro h <;> simp [extract_data, h]

/-- Witness for C2: a 200 response yields its body, a 503 response yields a
`FetchError` carrying 503. -/
theorem extract_data_spec_witness :
    extract_data (α := Nat) ⟨200, [[("date", some 1)]]⟩ =
      Except.ok [[("date", some 1)]] ∧
    extract_data (α := Nat) ⟨503, [[("date", some 1)]]⟩ = Except.error ⟨503⟩ :=
  ⟨(extract_data_spec ⟨200, [[("date", some 1)]]⟩).1 rfl,
   (extract_data_spec ⟨503, [[("date", some 1)]]⟩).2 (by decide)⟩

/-! ## Purity of the transformer over the heap -/

/-- Running the transformer only appends to the heap. -/
theorem transform_data_impl_objs {α : Type} :
    ∀ (addrs : List Nat) (h : PyHeap α),
      ∃ ext, (transform_data_impl h addrs).1.objs = h.objs ++ ext := by
  intro addrs
  induction addrs with
  | nil => exact fun h => ⟨[], by simp [transform_data_impl]⟩
  | cons a rest ih =>
    intro h
    obtain ⟨ext, hext⟩ := ih ⟨h.objs ++ [transform_row (h.read a)]⟩
    refine ⟨[transform_row (h.read a)] ++ ext, ?_⟩
    simp only [transform_data_impl, PyHeap.alloc]
    rw [hext]
    simp

/-- Reads of pre-existing objects are unaffected by running the
transformer. -/
theorem transform_data_impl_read {α : Type} (addrs : List Nat) (h : PyHeap α)
    (a : Nat) (ha : a < h.objs.length) :
    (transform_data_impl h addrs).1.read a = h.read a := by
  obtain ⟨ext, hext⟩ := transform_data_impl_objs addrs h
  simp [PyHeap.read, hext, List.getD, List.getElem?_append_left ha]

/-- Reading the output addresses back from the final heap gives exactly the
pure `transform_data` of the input records, provided the input addresses
are live. -/
theorem transform_data_impl_out {α : Type} :
    ∀ (addrs : List Nat) (h : PyHeap α),
      (∀ a ∈ addrs, a < h.objs.length) →
      ((transform_data_impl h addrs).2.map fun b =>
          (transform_data_impl h addrs).1.read b)
        = transform_data (addrs.map fun a => h.read a) := by
  intro addrs
  induction addrs with
  | nil => intro h _; simp [transform_data_impl, transform_data]
  | cons a rest ih =>
    intro h hv
    have ha : a < h.objs.length := hv a (List.mem_cons_self a rest)
    have hrest : ∀ x ∈ rest, x < h.objs.length :=
      fun x hx => hv x (List.mem_cons_of_mem a hx)
    simp only [transform_data_impl, PyHeap.alloc, List.map_cons]
    set h1 : PyHeap α := ⟨h.objs ++ [transform_row (h.read a)]⟩ with hh1
    have hlen : h1.objs.length = h.objs.length + 1 := by simp [hh1]
    have hrest1 : ∀ x ∈ rest, x < h1.objs.length := by
      intro x hx
      exact lt_trans (hrest x hx) (by omega)
    have hhead : (transform_data_impl h1 rest).1.read h.objs.length
        = transform_row (h.read a) := by
      rw [transform_data_impl_read rest h1 h.objs.length (by omega)]
      simp [PyHeap.read, hh1, List.getD]
    have htail := ih h1 hrest1
    have hsame : rest.map (fun x => h1.read x) = rest.map fun x => h.read x := by
      refine List.map_congr_left fun x hx => ?_
      simp [PyHeap.read, hh1, List.getD, List.getElem?_append_left (hrest x hx)]
    rw [hsame] at htail
    simp only [transform_data, List.map_cons] at *
    exact by rw [hhead, htail]

/-- Claim C8: the transform step is deterministic and side-effect-free on
its input.  Over the heap model: (1) the input heap is preserved (no input
record is mutated), (2) the output rows are the pure `transform_data` of
the input values (referential transparency), and (3) a second invocation on
the same input addresses yields identical output values. -/
theorem transform_data_pure {α : Type} (h : PyHeap α) (addrs : List Nat)
    (hv : ∀ a ∈ addrs, a < h.objs.length) :
    (transform_data_impl h addrs).1.objs.take h.objs.length = h.objs ∧
    ((transform_data_impl h addrs).2.map fun b =>
        (transform_data_impl h addrs).1.read b)
      = transform_data (addrs.map fun a => h.read a) ∧
    ((transform_data_impl (transform_data_impl h addrs).1 addrs).2.map fun b =>
        (transform_data_impl (transform_data_impl h addrs).1 addrs).1.read b)
      = (transform_data_impl h addrs).2.map fun b =>
          (transform_data_impl h addrs).1.read b := by
  obtain ⟨ext, hext⟩ := transform_data_impl_objs addrs h
  refine ⟨by rw [hext]; exact List.take_left h.objs ext, transform_data_impl_out addrs h hv, ?_⟩
  have hv1 : ∀ a ∈ addrs, a < (transform_data_impl h addrs).1.objs.length := by
    intro a ha
    rw [hext]
    simp only [List.length_append]
    exact lt_of_lt_of_le (hv a ha) (Nat.le_add_right _ _)
  rw [transform_data_impl_out addrs _ hv1, transform_data_impl_out addrs h hv]
  have : addrs.map (fun a => (transform_data_impl h addrs).1.read a)
      = addrs.map fun a => h.read a :=
    List.map_congr_left fun a ha => transform_data_impl_read addrs h a (hv a ha)
  rw [this]

/-- Witness for C8 on a one-record heap. -/
theorem transform_data_pure_witness :
    (transform_data_impl (α := Nat) ⟨[[("date", some 1)]]⟩ [0]).1.objs.take 1
      = [[("date", some 1)]] ∧
    ((transform_data_impl (α := Nat) ⟨[[("date", some 1)]]⟩ [0]).2.map fun b =>
        (transform_data_impl (α := Nat) ⟨[[("date", some 1)]]⟩ [0]).1.read b)
      = transform_data ([0].map fun a => PyHeap.read ⟨[[("date", some 1)]]⟩ a) := by
  have h := transform_data_pure (α := Nat) ⟨[[("date", some 1)]]⟩ [0] (by decide)
  exact ⟨h.1, h.2.1⟩

/-! ## Lemmas about the loader -/

/-- The insert loop never commits: whatever the oracle does, the work
committed by this run is unchanged across the loop. -/
theorem insertLoop_committedInserts {α ε : Type} (oracle : Nat → Option ε) :
    ∀ (rows : List (PyDict α)) (i count : Nat) (s : DBState α),
      (insertLoop oracle rows i count s).2.2.committedInserts = s.committedInserts := by
  intro rows
  induction rows with
  | nil => intro i count s; simp [insertLoop]
  | cons data rest ih =>
    intro i count s
    simp only [insertLoop, attempt]
    cases oracle i with
    | some e => simp
    | none => simp [applyOp, ih]

/-- Inversion form: whatever triple the insert loop returns, its final
state has the same committed inserts as its initial state. -/
theorem insertLoop_committedInserts_inv {α ε : Type} {oracle : Nat → Option ε}
    {rows : List (PyDict α)} {i count : Nat} {s : DBState α}
    {res : Except ε Nat} {j : Nat} {s' : DBState α}
    (h : insertLoop oracle rows i count s = (res, j, s')) :
    s'.committedInserts = s.committedInserts := by
  have h' := insertLoop_committedInserts oracle rows i count s
  rw [h] at h'
  exact h'

/-- When the oracle never fails, the insert loop executes one insert per
row in order, returning `count + rows.length`. -/
theorem insertLoop_ok {α ε : Type} (oracle : Nat → Option ε)
    (hok : ∀ j, oracle j = none) :
    ∀ (rows : List (PyDict α)) (i count : Nat) (s : DBState α),
      insertLoop oracle rows i count s =
        (Except.ok (count + rows.length), i + rows.length,
         { s with
            pendingInserts := s.pendingInserts ++ rows.map insert_params,
            trace := s.trace ++ rows.map fun r => Op.insert (insert_params r) }) := by
  intro rows
  induction rows with
  | nil => intro i count s; simp [insertLoop]
  | cons data rest ih =>
    intro i count s
    simp only [insertLoop, attempt, hok i, applyOp, ih, List.map_cons, List.length_cons]
    simp only [Prod.mk.injEq, Except.ok.injEq, DBState.mk.injEq, List.append_assoc,
      List.singleton_append, true_and, and_true]
    omega

/-- Any exception coming out of the insert loop is one the oracle raised. -/
theorem insertLoop_error_oracle {α ε : Type} (oracle : Nat → Option ε) :
    ∀ (rows : List (PyDict α)) (i count : Nat) (s : DBState α) (e : ε),
      (insertLoop oracle rows i count s).1 = Except.error e →
      ∃ j, oracle j = some e := by
  intro rows
  induction rows with
  | nil => intro i count s e h; simp [insertLoop] at h
  | cons data rest ih =>
    intro i count s e h
    simp only [insertLoop, attempt] at h
    cases hi : oracle i with
    | some e0 =>
      rw [hi] at h
      simp at h
      exact ⟨i, by rw [hi, h]⟩
    | none =>
      rw [hi] at h
      exact ih _ _ _ _ h

/-- Inverting a failed `attempt`: the oracle raised that exception, and the
state only gained the trace entry. -/
theorem attempt_some_inv {α ε : Type} {oracle : Nat → Option ε} {i : Nat}
    {op : Op α} {s s' : DBState α} {e : ε}
    (h : attempt oracle i op s = (some e, s')) :
    oracle i = some e ∧ s' = { s with trace := s.trace ++ [op] } := by
  unfold attempt at h
  cases hi : oracle i with
  | some e0 =>
    rw [hi] at h
    simp only [Prod.mk.injEq, Option.some.injEq] at h
    exact ⟨by rw [h.1], h.2.symm⟩
  | none =>
    rw [hi] at h
    simp at h

/-- Inverting a successful `attempt`: the oracle let it through, and the
state gained the trace entry and the operation's effect. -/
theorem attempt_none_inv {α ε : Type} {oracle : Nat → Option ε} {i : Nat}
    {op : Op α} {s s' : DBState α}
    (h : attempt oracle i op s = (none, s')) :
    oracle i = none ∧ s' = applyOp { s with trace := s.trace ++ [op] } op := by
  unfold attempt at h
  cases hi : oracle i with
  | some e0 =>
    rw [hi] at h
    simp at h
  | none =>
    rw [hi] at h
    simp only [Prod.mk.injEq] at h
    exact ⟨rfl, h.2.symm⟩

/-- If the body of the loader raises, then (a) the session state at the
point of the exception has zero inserted rows committed, and (b) the
exception is one the database raised (the loader invents none). -/
theorem runBody_error_spec {α ε : Type} (oracle : Nat → Option ε)
    (rows : List (PyDict α)) (e : ε)
    (h : (runBody oracle rows).1 = Except.error e) :
    (runBody oracle rows).2.committedInserts = [] ∧ ∃ j, oracle j = some e := by
  revert h
  unfold runBody
  split
  · rename_i e0 s heq
    intro h
    obtain ⟨h0, hs⟩ := attempt_some_inv heq
    subst hs
    simp only [Except.error.injEq] at h
    subst h
    exact ⟨rfl, 0, h0⟩
  · rename_i s0 heq0
    obtain ⟨h0, hs0⟩ := attempt_none_inv heq0
    subst hs0
    split
    · rename_i e1 s heq
      intro h
      obtain ⟨h1, hs⟩ := attempt_some_inv heq
      subst hs
      simp only [Except.error.injEq] at h
      subst h
      exact ⟨rfl, 1, h1⟩
    · rename_i s1 heq1
      obtain ⟨h1, hs1⟩ := attempt_none_inv heq1
      subst hs1
      split
      · rename_i e2 s heq
        intro h
        obtain ⟨h2, hs⟩ := attempt_some_inv heq
        subst hs
        simp only [Except.error.injEq] at h
        subst h
        exact ⟨rfl, 2, h2⟩
      · rename_i s2 heq2
        obtain ⟨h2, hs2⟩ := attempt_none_inv heq2
        subst hs2
        split
        · rename_i e0 i s3 heq3
          intro h
          simp only [Except.error.injEq] at h
          subst h
          have hs3 : s3.committedInserts = [] := by
            simpa [applyOp] using insertLoop_committedInserts_inv heq3
          refine ⟨hs3, ?_⟩
          exact insertLoop_error_oracle oracle rows 3 0 _ e0 (by rw [heq3])
        · rename_i count i s3 heq3
          have hs3 : s3.committedInserts = [] := by
            simpa [applyOp] using insertLoop_committedInserts_inv heq3
          split
          · rename_i ec s heq
            intro h
            obtain ⟨hc, hs⟩ := attempt_some_inv heq
            subst hs
            simp only [Except.error.injEq] at h
            subst h
            exact ⟨hs3, i, hc⟩
          · rename_i s4 heq4
            intro h
            simp at h

/-- Claim C3: if the load step fails (an exception during any phase, in
particular during some insert), zero rows inserted by that run are
committed: the only commits are one immediately after the DDL and one after
all inserts succeed, so an error mid-batch leaves the table without any
rows from that run. -/
theorem load_error_nothing_committed {α ε : Type} (databaseURL : Option String)
    (rows : List (PyDict α)) (oracle : Nat → Option ε) (err : LoadError ε)
    (h : (load_data_into_database databaseURL rows oracle).outcome = Except.error err) :
    (load_data_into_database databaseURL rows oracle).db.committedInserts = [] := by
  cases hf : strFalsy databaseURL with
  | true => simp [load_data_into_database, hf]
  | false =>
    simp only [load_data_into_database, hf, Bool.false_eq_true, if_false] at h ⊢
    cases hr : (runBody oracle rows).1 with
    | ok n =>
      rw [hr] at h
      simp [Except.mapError] at h
    | error e =>
      have hspec := runBody_error_spec oracle rows e hr
      simp [closeConn, hspec.1]

/-- Witness for C3: the oracle fails the first insert (operation 3); the
run ends in an error and commits no rows. -/
theorem load_error_nothing_committed_witness :
    (load_data_into_database (α := Nat) (ε := Nat) (some "postgresql://db")
        [[("date", some 1)], []] (fun i => if i = 3 then some 7 else none)).outcome
      = Except.error (LoadError.dbError 7) ∧
    (load_data_into_database (α := Nat) (ε := Nat) (some "postgresql://db")
        [[("date", some 1)], []] (fun i => if i = 3 then some 7 else none)).db.committedInserts
      = [] :=
  ⟨rfl, load_error_nothing_committed _ _ _ _ rfl⟩

/-- Claim C4: if the database connection string is missing from the
environment, the load step raises the configuration error before any
connection or network activity is attempted (the trace of issued database
operations is empty), for every input row list. -/
theorem load_missing_url_config_error {α ε : Type} (rows : List (PyDict α))
    (oracle : Nat → Option ε) :
    (load_data_into_database (α := α) none rows oracle).outcome
      = Except.error LoadError.configError ∧
    (load_data_into_database (α := α) none rows oracle).db.trace = [] :=
  ⟨rfl, rfl⟩

/-- Claim C5: on every exit path of the load step — committed or failed —
the database connection is released: the loader never terminates with the
connection still held. -/
theorem load_releases_connection {α ε : Type} (databaseURL : Option String)
    (rows : List (PyDict α)) (oracle : Nat → Option ε) :
    (load_data_into_database databaseURL rows oracle).db.connOpen = false := by
  unfold load_data_into_database
  split
  · rfl
  · simp [closeConn]

/-- Claim C6: given an empty list of transformed rows, the load step still
executes and commits the idempotent CREATE TABLE statement, performs zero
inserts (the trace holds no insert operation), and reports an insert count
of 0. -/
theorem load_empty_rows_spec {α ε : Type} (databaseURL : Option String)
    (oracle : Nat → Option ε) (hurl : strFalsy databaseURL = false)
    (hok : ∀ i, oracle i = none) :
    (load_data_into_database (α := α) databaseURL [] oracle).outcome = Except.ok 0 ∧
    (load_data_into_database (α := α) databaseURL [] oracle).db.committedDDL = true ∧
    (load_data_into_database (α := α) databaseURL [] oracle).db.trace
      = [Op.connect, Op.createTable, Op.commit, Op.commit] := by
  refine ⟨?_, ?_, ?_⟩ <;>
    simp [load_data_into_database, hurl, runBody, attempt, hok, insertLoop,
      applyOp, closeConn, Except.mapError]

/-- Witness for C6 with a reachable database and an empty row list. -/
theorem load_empty_rows_spec_witness :
    (load_data_into_database (α := Nat) (ε := Nat) (some "postgresql://db") []
        (fun _ => none)).outcome = Except.ok 0 ∧
    (load_data_into_database (α := Nat) (ε := Nat) (some "postgresql://db") []
        (fun _ => none)).db.committedDDL = true ∧
    (load_data_into_database (α := Nat) (ε := Nat) (some "postgresql://db") []
        (fun _ => none)).db.trace
      = [Op.connect, Op.createTable, Op.commit, Op.commit] :=
  load_empty_rows_spec (some "postgresql://db") (fun _ => none) rfl (fun _ => rfl)

/-- Claim C7: every exception arising during the load step's DDL or insert
phase is re-raised unchanged to the caller (wrapped only with the error
kind), no database error is swallowed, and no partial result is returned in
place of the error; moreover the exception is one the database actually
raised. -/
theorem load_error_propagates {α ε : Type} (databaseURL : Option String)
    (rows : List (PyDict α)) (oracle : Nat → Option ε) (e : ε)
    (hurl : strFalsy databaseURL = false)
    (h : (runBody oracle rows).1 = Except.error e) :
    (load_data_into_database databaseURL rows oracle).outcome
      = Except.error (LoadError.dbError e) ∧ ∃ j, oracle j = some e := by
  refine ⟨?_, (runBody_error_spec oracle rows e h).2⟩
  simp [load_data_into_database, hurl, h, Except.mapError]

/-- Witness for C7: the oracle fails the CREATE TABLE statement (operation
1) with exception 5, and the loader raises exactly that exception. -/
theorem load_error_propagates_witness :
    (load_data_into_database (α := Nat) (ε := Nat) (some "postgresql://db")
        [[("date", some 2)]] (fun i => if i = 1 then some 5 else none)).outcome
      = Except.error (LoadError.dbError 5) ∧
    ∃ j, (fun i => if i = 1 then some 5 else none : Nat → Option Nat) j = some 5 :=
  load_error_propagates (some "postgresql://db") [[("date", some 2)]]
    (fun i => if i = 1 then some 5 else none) 5 rfl rfl

/-- Claim C9: the load step treats an empty-string connection URL exactly
like an absent one: the falsiness check raises the fatal configuration
error before any database operation is attempted. -/
theorem load_empty_url_config_error {α ε : Type} (rows : List (PyDict α))
    (oracle : Nat → Option ε) :
    load_data_into_database (α := α) (some "") rows oracle
      = load_data_into_database none rows oracle ∧
    (load_data_into_database (α := α) (some "") rows oracle).outcome
      = Except.error LoadError.configError ∧
    (load_data_into_database (α := α) (some "") rows oracle).db.trace = [] :=
  ⟨rfl, rfl, rfl⟩

/-- Claim C10: the load step does not require its input rows to contain all
six keys: with a healthy database every row is inserted (the run reports
`rows.length` inserts and the trace holds one insert per row in order), and
each insert parameter is read via the defaulting lookup, so a missing key
yields a null parameter rather than a key-lookup error. -/
theorem load_defaulting_params {α ε : Type} (databaseURL : Option String)
    (rows : List (PyDict α)) (oracle : Nat → Option ε)
    (hurl : strFalsy databaseURL = false) (hok : ∀ i, oracle i = none) :
    (load_data_into_database databaseURL rows oracle).outcome
      = Except.ok rows.length ∧
    (load_data_into_database databaseURL rows oracle).db.trace
      = Op.connect :: Op.createTable :: Op.commit ::
          ((rows.map fun r => Op.insert (insert_params r)) ++ [Op.commit]) ∧
    ∀ (r : PyDict α), ∀ k ∈ pitKeys,
      (insert_params r).lookup k = some (pyGet r k) := by
  refine ⟨?_, ?_, ?_⟩
  · simp [load_data_into_database, hurl, runBody, attempt, hok,
      insertLoop_ok oracle hok, applyOp, closeConn, Except.mapError]
  · simp [load_data_into_database, hurl, runBody, attempt, hok,
      insertLoop_ok oracle hok, applyOp, closeConn, Except.mapError]
  · intro r k hk
    fin_cases hk <;> rfl

/-- Witness for C10: a row holding only `driver_number` and a fully empty
row are both inserted, and the missing `pit_duration` parameter is null. -/
theorem load_defaulting_params_witness :
    (load_data_into_database (α := Nat) (ε := Nat) (some "postgresql://db")
        [[("driver_number", some 44)], []] (fun _ => none)).outcome = Except.ok 2 ∧
    (insert_params (α := Nat) [("driver_number", some 44)]).lookup "pit_duration"
      = some (pyGet (α := Nat) [("driver_number", some 44)] "pit_duration") := by
  have h := load_defaulting_params (α := Nat) (ε := Nat) (some "postgresql://db")
    [[("driver_number", some 44)], []] (fun _ => none) rfl (fun _ => rfl)
  exact ⟨h.1, h.2.2 [("driver_number", some 44)] "pit_duration" (by decide)⟩

end F1
